import Mathlib

/-!
Shallow embedding of the core of the tibia-querymanager repository
(src/querymanager.hh, src/query.cc, src/connections.cc,
src/database_sqlite.cc, src/database_postgres.cc), used to settle the
claims about the request/response fabric: the framed I/O buffers, the
query object and its response finalisation, the bounded ring-buffer
query queue, the worker dispatch loop, the connection input state
machine and whitelist gate, the transaction scope and the per-session
prepared-statement cache.

Machine integers are modelled as Nat with explicit reductions modulo
2^8 / 2^16 / 2^32 where the C code relies on fixed-width behaviour.
Byte buffers are modelled as functions from index to byte value.
-/

namespace QueryManager

/-- 2^32, the modulus of the C uint32 type. -/
def U32 : Nat := 4294967296

-- Query status codes (querymanager.hh, enum QUERY_STATUS_*).
def QUERY_STATUS_OK : Nat := 0
def QUERY_STATUS_ERROR : Nat := 1
def QUERY_STATUS_FAILED : Nat := 3
def QUERY_STATUS_PENDING : Nat := 4

-- Application types (querymanager.hh, enum APPLICATION_TYPE_*).
def APPLICATION_TYPE_GAME : Nat := 1
def APPLICATION_TYPE_LOGIN : Nat := 2
def APPLICATION_TYPE_WEB : Nat := 3

-- Query type codes (querymanager.hh, enum QUERY_*).
def QUERY_LOGIN : Nat := 0
def QUERY_INTERNAL_RESOLVE_WORLD : Nat := 1
def QUERY_CHECK_ACCOUNT_PASSWORD : Nat := 10
def QUERY_LOGIN_ACCOUNT : Nat := 11
def QUERY_LOGIN_ADMIN : Nat := 12
def QUERY_LOGIN_GAME : Nat := 20
def QUERY_LOGOUT_GAME : Nat := 21
def QUERY_SET_NAMELOCK : Nat := 23
def QUERY_BANISH_ACCOUNT : Nat := 25
def QUERY_SET_NOTATION : Nat := 26
def QUERY_REPORT_STATEMENT : Nat := 27
def QUERY_BANISH_IP_ADDRESS : Nat := 28
def QUERY_LOG_CHARACTER_DEATH : Nat := 29
def QUERY_ADD_BUDDY : Nat := 30
def QUERY_REMOVE_BUDDY : Nat := 31
def QUERY_DECREMENT_IS_ONLINE : Nat := 32
def QUERY_FINISH_AUCTIONS : Nat := 33
def QUERY_TRANSFER_HOUSES : Nat := 35
def QUERY_EVICT_FREE_ACCOUNTS : Nat := 36
def QUERY_EVICT_DELETED_CHARACTERS : Nat := 37
def QUERY_EVICT_EX_GUILDLEADERS : Nat := 38
def QUERY_INSERT_HOUSE_OWNER : Nat := 39
def QUERY_UPDATE_HOUSE_OWNER : Nat := 40
def QUERY_DELETE_HOUSE_OWNER : Nat := 41
def QUERY_GET_HOUSE_OWNERS : Nat := 42
def QUERY_GET_AUCTIONS : Nat := 43
def QUERY_START_AUCTION : Nat := 44
def QUERY_INSERT_HOUSES : Nat := 45
def QUERY_CLEAR_IS_ONLINE : Nat := 46
def QUERY_CREATE_PLAYERLIST : Nat := 47
def QUERY_LOG_KILLED_CREATURES : Nat := 48
def QUERY_LOAD_PLAYERS : Nat := 50
def QUERY_EXCLUDE_FROM_AUCTIONS : Nat := 51
def QUERY_CANCEL_HOUSE_TRANSFER : Nat := 52
def QUERY_LOAD_WORLD_CONFIG : Nat := 53
def QUERY_CREATE_ACCOUNT : Nat := 100
def QUERY_CREATE_CHARACTER : Nat := 101
def QUERY_GET_ACCOUNT_SUMMARY : Nat := 102
def QUERY_GET_CHARACTER_PROFILE : Nat := 103
def QUERY_GET_WORLDS : Nat := 150
def QUERY_GET_ONLINE_CHARACTERS : Nat := 151
def QUERY_GET_KILL_STATISTICS : Nat := 152

/-- Little-endian 16-bit read of two buffer bytes
(querymanager.hh, BufferRead16LE); buffer contents are reduced
modulo 256 to model the uint8 element type. -/
def bufferRead16LE (buf : Nat → Nat) (off : Nat) : Nat :=
  (buf off % 256) + 256 * (buf (off + 1) % 256)

/-- Little-endian 32-bit read of four buffer bytes
(querymanager.hh, BufferRead32LE). -/
def bufferRead32LE (buf : Nat → Nat) (off : Nat) : Nat :=
  (buf off % 256) + 256 * (buf (off + 1) % 256)
    + 65536 * (buf (off + 2) % 256) + 16777216 * (buf (off + 3) % 256)

/-- Store one byte (reduced modulo 256) at an index of a byte buffer. -/
def bufferWrite8 (buf : Nat → Nat) (off v : Nat) : Nat → Nat :=
  fun j => if j = off then v % 256 else buf j

/-- Store a list of bytes starting at an index (models the memcpy done
by read(2) into Query->Buffer in CheckConnectionInput). -/
def bufferWriteBytes (buf : Nat → Nat) (off : Nat) : List Nat → (Nat → Nat)
  | [] => buf
  | b :: rest => bufferWriteBytes (bufferWrite8 buf off b) (off + 1) rest

/-- TReadBuffer (querymanager.hh): a byte view with a size and a
running read position. -/
structure TReadBuffer where
  data : Nat → Nat
  size : Nat
  position : Nat

/-- TReadBuffer::Read8: returns the byte when it fits, 0 otherwise,
and always advances the position by one. -/
def readBuf8 (b : TReadBuffer) : Nat × TReadBuffer :=
  let v := if b.position + 1 ≤ b.size then b.data b.position % 256 else 0
  (v, { b with position := b.position + 1 })

/-- TWriteBuffer (querymanager.hh): a byte view with a size and a
running write position; the position may run past the size, which is
what Overflowed() detects. -/
structure TWriteBuffer where
  data : Nat → Nat
  size : Nat
  position : Nat

namespace TWriteBuffer

/-- TWriteBuffer::CanWrite. -/
def canWrite (b : TWriteBuffer) (n : Nat) : Bool :=
  b.position + n ≤ b.size

/-- TWriteBuffer::Overflowed: Position > Size. -/
def overflowed (b : TWriteBuffer) : Bool :=
  b.size < b.position

/-- TWriteBuffer::Write8: stores when it fits, always advances. -/
def write8 (b : TWriteBuffer) (v : Nat) : TWriteBuffer :=
  if b.canWrite 1 then
    { b with data := bufferWrite8 b.data b.position v, position := b.position + 1 }
  else
    { b with position := b.position + 1 }

/-- TWriteBuffer::Write16 (little-endian). -/
def write16 (b : TWriteBuffer) (v : Nat) : TWriteBuffer :=
  if b.canWrite 2 then
    { b with
      data := bufferWrite8 (bufferWrite8 b.data b.position v) (b.position + 1) (v / 256),
      position := b.position + 2 }
  else
    { b with position := b.position + 2 }

/-- TWriteBuffer::Rewrite16: patches two bytes at an absolute position,
only when that position is inside the written region and the buffer
has not overflowed. -/
def rewrite16 (b : TWriteBuffer) (pos v : Nat) : TWriteBuffer :=
  if pos + 2 ≤ b.position ∧ ¬ b.overflowed then
    { b with data := bufferWrite8 (bufferWrite8 b.data pos v) (pos + 1) (v / 256) }
  else
    b

/-- TWriteBuffer::Insert32: when the insertion point is inside the
written region, shifts the bytes from `pos` up by four (when they fit)
and stores a little-endian u32 there; the position always advances by
four in that case. -/
def insert32 (b : TWriteBuffer) (pos v : Nat) : TWriteBuffer :=
  if pos ≤ b.position then
    if b.canWrite 4 then
      { b with
        data := fun j =>
          if j < pos then b.data j
          else if j = pos then v % 256
          else if j = pos + 1 then v / 256 % 256
          else if j = pos + 2 then v / 65536 % 256
          else if j = pos + 3 then v / 16777216 % 256
          else if j < b.position + 4 then b.data (j - 4)
          else b.data j,
        position := b.position + 4 }
    else
      { b with position := b.position + 4 }
  else
    b

end TWriteBuffer

/-- TQuery (querymanager.hh): the query object shared between a
connection and a worker.  The reference count is carried separately by
the queue model (queryEnqueue below), since it is only touched by the
enqueue/dequeue handoff. -/
structure TQuery where
  queryType : Nat
  queryStatus : Nat
  worldID : Nat
  bufferSize : Nat
  buffer : Nat → Nat
  request : TReadBuffer
  response : TWriteBuffer

/-- QueryBeginResponse (query.cc): records the status on the query and
starts a fresh response view over the shared buffer with a
placeholder u16 header followed by the status byte. -/
def queryBeginResponse (q : TQuery) (status : Nat) : TQuery :=
  let r0 : TWriteBuffer := { data := q.buffer, size := q.bufferSize, position := 0 }
  let r1 := (r0.write16 0).write8 status
  { q with queryStatus := status, response := r1 }

/-- QueryFinishResponse (query.cc): patches the frame header with the
payload size (switching to the extended 0xFFFF + u32 form for large
payloads) and reports whether the response fits the buffer. -/
def queryFinishResponse (q : TQuery) : Bool × TQuery :=
  if q.response.position ≤ 2 then
    (false, q)
  else
    let payloadSize := q.response.position - 2
    let r :=
      if payloadSize < 65535 then
        q.response.rewrite16 0 payloadSize
      else
        (q.response.rewrite16 0 65535).insert32 2 payloadSize
    (¬ r.overflowed, { q with response := r })

/-- QueryOk (query.cc); the boolean result of finalisation is
discarded, exactly as in the source. -/
def queryOk (q : TQuery) : TQuery :=
  (queryFinishResponse (queryBeginResponse q QUERY_STATUS_OK)).2

/-- QueryError (query.cc). -/
def queryError (q : TQuery) (errorCode : Nat) : TQuery :=
  let q1 := queryBeginResponse q QUERY_STATUS_ERROR
  let q2 := { q1 with response := q1.response.write8 errorCode }
  (queryFinishResponse q2).2

/-- QueryFailed (query.cc). -/
def queryFailed (q : TQuery) : TQuery :=
  (queryFinishResponse (queryBeginResponse q QUERY_STATUS_FAILED)).2

-- Connection state machine (connections.cc).

/-- ConnectionState (querymanager.hh). -/
inductive ConnState where
  | free
  | reading
  | request
  | response
  | writing
deriving DecidableEq

/-- TConnection (querymanager.hh), restricted to the fields the
embedded functions touch.  The socket handle is modelled by the flag
`socketOpen` (Socket != -1); the bound query, allocated on first read
in the source, is always present here. -/
structure TConnection where
  state : ConnState
  socketOpen : Bool
  rwSize : Nat
  rwPosition : Nat
  authorized : Bool
  applicationType : Nat
  query : TQuery

/-- CloseConnection (connections.cc): closes the socket; the slot is
released later by CheckConnection. -/
def closeConnection (c : TConnection) : TConnection :=
  { c with socketOpen := false }

/-- SendQueryResponse (connections.cc): only a connection in RESPONSE
state with a non-overflowed response transitions to WRITING; any other
situation closes the connection. -/
def sendQueryResponse (c : TConnection) : TConnection :=
  if c.state ≠ ConnState.response then
    closeConnection c
  else if ¬ c.query.response.overflowed then
    { c with state := ConnState.writing,
             rwSize := c.query.response.position, rwPosition := 0 }
  else
    closeConnection c

/-- SendQueryOk (connections.cc). -/
def sendQueryOk (c : TConnection) : TConnection :=
  sendQueryResponse { c with query := queryOk c.query }

/-- SendQueryError (connections.cc). -/
def sendQueryError (c : TConnection) (errorCode : Nat) : TConnection :=
  sendQueryResponse { c with query := queryError c.query errorCode }

/-- SendQueryFailed (connections.cc). -/
def sendQueryFailed (c : TConnection) : TConnection :=
  sendQueryResponse { c with query := queryFailed c.query }

-- Bounded query queue (query.cc, TQueryQueue / QueryEnqueue / QueryDequeue).

/-- TQueryQueue (query.cc): ring buffer of query handles.  ReadPos and
WritePos are uint32 counters (kept below 2^32 and updated modulo 2^32);
a handle at position p lives in slot p % MaxQueries.  Queue items are
abstract query handles (Nat). -/
structure TQueryQueue where
  readPos : Nat
  writePos : Nat
  maxQueries : Nat
  slots : Nat → Nat

/-- NumQueries = WritePos - ReadPos in uint32 arithmetic. -/
def numQueries (q : TQueryQueue) : Nat :=
  (q.writePos + U32 - q.readPos) % U32

/-- The unguarded body of QueryEnqueue once room is available:
`Queries[WritePos % MaxQueries] = Query; WritePos += 1`. -/
def enqueueStep (q : TQueryQueue) (x : Nat) : TQueryQueue :=
  { q with
    slots := fun j => if j = q.writePos % q.maxQueries then x else q.slots j,
    writePos := (q.writePos + 1) % U32 }

/-- QueryEnqueue with the condition-variable wait modelled as the
precondition that room is available: appends only when it is. -/
def enqueueIfRoom (q : TQueryQueue) (x : Nat) : TQueryQueue :=
  if numQueries q < q.maxQueries then enqueueStep q x else q

/-- QueryEnqueue (query.cc): the compare-exchange on the reference
count admits exactly the value 1, bumping it to 2; any other value is
logged and the enqueue refused with the queue untouched.  Returns the
new reference count, the new queue and whether the enqueue happened.
The room wait is modelled as in enqueueIfRoom. -/
def queryEnqueue (rc : Int) (q : TQueryQueue) (x : Nat) :
    Int × TQueryQueue × Bool :=
  if rc = 1 then (2, enqueueIfRoom q x, true) else (rc, q, false)

/-- QueryDequeue (query.cc): when the queue is non-empty and the
worker is still running, pops `Queries[ReadPos % MaxQueries]` and
advances ReadPos; otherwise returns NULL. -/
def queryDequeue (running : Bool) (q : TQueryQueue) :
    Option Nat × TQueryQueue :=
  if running ∧ numQueries q ≠ 0 then
    (some (q.slots (q.readPos % q.maxQueries)),
     { q with readPos := (q.readPos + 1) % U32 })
  else
    (none, q)

/-- The abstract contents of the ring buffer, oldest first. -/
def absQueue (q : TQueryQueue) : List Nat :=
  (List.range (numQueries q)).map
    (fun i => q.slots (((q.readPos + i) % U32) % q.maxQueries))

/-- Dequeue n times, collecting the handles produced. -/
def drainN : Nat → TQueryQueue → List Nat
  | 0, _ => []
  | n + 1, q =>
    match queryDequeue true q with
    | (some x, q2) => x :: drainN n q2
    | (none, _) => []

-- Worker dispatch loop (query.cc, WorkerThread).

/-- The query types with a case in the WorkerThread dispatch switch
(query.cc lines 128-174); every other type falls into the default case
and is answered with QueryFailed. -/
def dispatchTableTypes : List Nat :=
  [ QUERY_INTERNAL_RESOLVE_WORLD, QUERY_CHECK_ACCOUNT_PASSWORD,
    QUERY_LOGIN_ACCOUNT, QUERY_LOGIN_ADMIN, QUERY_LOGIN_GAME,
    QUERY_LOGOUT_GAME, QUERY_SET_NAMELOCK, QUERY_BANISH_ACCOUNT,
    QUERY_SET_NOTATION, QUERY_REPORT_STATEMENT, QUERY_BANISH_IP_ADDRESS,
    QUERY_LOG_CHARACTER_DEATH, QUERY_ADD_BUDDY, QUERY_REMOVE_BUDDY,
    QUERY_DECREMENT_IS_ONLINE, QUERY_FINISH_AUCTIONS,
    QUERY_TRANSFER_HOUSES, QUERY_EVICT_FREE_ACCOUNTS,
    QUERY_EVICT_DELETED_CHARACTERS, QUERY_EVICT_EX_GUILDLEADERS,
    QUERY_INSERT_HOUSE_OWNER, QUERY_UPDATE_HOUSE_OWNER,
    QUERY_DELETE_HOUSE_OWNER, QUERY_GET_HOUSE_OWNERS,
    QUERY_GET_AUCTIONS, QUERY_START_AUCTION, QUERY_INSERT_HOUSES,
    QUERY_CLEAR_IS_ONLINE, QUERY_CREATE_PLAYERLIST,
    QUERY_LOG_KILLED_CREATURES, QUERY_LOAD_PLAYERS,
    QUERY_EXCLUDE_FROM_AUCTIONS, QUERY_CANCEL_HOUSE_TRANSFER,
    QUERY_LOAD_WORLD_CONFIG, QUERY_CREATE_ACCOUNT,
    QUERY_CREATE_CHARACTER, QUERY_GET_ACCOUNT_SUMMARY,
    QUERY_GET_CHARACTER_PROFILE, QUERY_GET_WORLDS,
    QUERY_GET_ONLINE_CHARACTERS, QUERY_GET_KILL_STATISTICS ]

/-- The per-query body of WorkerThread (query.cc lines 125-176):
read the type byte from the request, dispatch once through the switch
(the concrete ProcessX handlers are only declared in the sources, so
they are a parameter here), or answer QueryFailed for an unknown type.
Returns the query as the worker leaves it, the number of handler
invocations and the number of DatabaseCheckpoint calls made; the loop
body contains no checkpoint call and no retry, so these counts are 1
(or 0) and 0. -/
def workerProcessOne (handlers : Nat → TQuery → TQuery) (q : TQuery) :
    TQuery × Nat × Nat :=
  let p := readBuf8 q.request
  let q1 := { q with queryType := p.1, request := p.2 }
  if p.1 ∈ dispatchTableTypes then
    (handlers p.1 q1, 1, 0)
  else
    (queryFailed q1, 0, 0)

/-- Modelled from the spec: a handler that "leaves PENDING to request
a retry after reconnection" (spec section 4.K).  The concrete ProcessX
handler bodies are declared in querymanager.hh but are not defined in
the sources under src/. -/
def pendingHandler : TQuery → TQuery :=
  fun q => { q with queryStatus := QUERY_STATUS_PENDING }

-- Worker pool start-up (query.cc, InitQuery) and configuration
-- (querymanager.cc, SetConfigDefaults / querymanager.hh, TConfig).

/-- The connection/query fields of TConfig (querymanager.hh). -/
structure TConfig where
  queryWorkerThreads : Nat
  queryBufferSize : Nat
  queryMaxAttempts : Nat
  maxConnections : Nat

/-- The defaults set in querymanager.cc (QueryWorkerThreads = 1,
QueryBufferSize = 1 MiB, QueryMaxAttempts = 3, MaxConnections = 25). -/
def defaultConfig : TConfig :=
  { queryWorkerThreads := 1, queryBufferSize := 1048576,
    queryMaxAttempts := 3, maxConnections := 25 }

/-- InitQuery (query.cc line 199) sets `g_NumWorkers = 1;`
unconditionally, whatever the configuration says. -/
def initQueryNumWorkers (_cfg : TConfig) : Nat := 1

/-- The worker ids spawned by the InitQuery loop
(query.cc lines 201-212). -/
def initQueryWorkerIds (cfg : TConfig) : List Nat :=
  List.range (initQueryNumWorkers cfg)

/-- DatabaseMaxConcurrency for the SQLite backend
(database_sqlite.cc): always 1. -/
def databaseMaxConcurrencySQLite : Nat := 1

/-- DatabaseMaxConcurrency for the PostgreSQL backend
(database_postgres.cc): INT_MAX. -/
def databaseMaxConcurrencyPostgreSQL : Nat := 2147483647

-- Connection input phase (connections.cc, CheckConnectionInput).

/-- The non-blocking socket as seen by one CheckConnectionInput call:
the bytes currently available to read, and whether the peer has shut
the stream down (so that a non-empty read request returns 0). -/
structure SocketBuf where
  pending : List Nat
  atEof : Bool

/-- How CheckConnectionInput computes the `ReadSize` local for the
current state (connections.cc lines 187-195). -/
def readSizeOf (c : TConnection) : Nat :=
  if c.rwSize ≠ 0 then c.rwSize
  else if c.rwPosition < 2 then 2 - c.rwPosition
  else 6 - c.rwPosition

/-- The byte count passed to read(2): `ReadSize - RWPosition`
(connections.cc line 199).  Note that when RWSize = 0 the ReadSize
local is already a remaining count, so RWPosition is subtracted
twice. -/
def requestedReadCount (c : TConnection) : Nat :=
  readSizeOf c - c.rwPosition

/-- Outcome of one CheckConnectionInput call. -/
inductive InputOutcome where
  | wait
  | gotRequest
  | closed
  | panicked
  | stalled
deriving DecidableEq

/-- One execution of the CheckConnectionInput while-loop
(connections.cc lines 186-244), structurally recursive on a fuel
bound.  Each non-terminal iteration consumes at least one pending
byte, so fuel `pending.length + 1` is always enough; `stalled` marks
fuel exhaustion and is never reached with adequate fuel.  A read of 0
requested bytes returns 0 and is taken as a graceful close; an empty
socket returns EAGAIN (wait) unless at EOF. -/
def connInputLoop : Nat → TConnection → SocketBuf →
    TConnection × SocketBuf × InputOutcome
  | 0, c, s => (c, s, InputOutcome.stalled)
  | fuel + 1, c, s =>
    let readSize := readSizeOf c
    let count := requestedReadCount c
    if count = 0 then
      (closeConnection c, s, InputOutcome.closed)
    else if s.pending = [] then
      if s.atEof then (closeConnection c, s, InputOutcome.closed)
      else (c, s, InputOutcome.wait)
    else
      let k := min count s.pending.length
      let bs := s.pending.take k
      let s2 : SocketBuf := { s with pending := s.pending.drop k }
      let buf2 := bufferWriteBytes c.query.buffer c.rwPosition bs
      let c2 := { c with query := { c.query with buffer := buf2 },
                         rwPosition := c.rwPosition + k }
      if c2.rwPosition ≥ readSize then
        if c.rwSize ≠ 0 then
          ({ c2 with state := ConnState.request,
                     query := { c2.query with request :=
                       { data := buf2, size := c.rwSize, position := 0 } } },
           s2, InputOutcome.gotRequest)
        else if c2.rwPosition = 2 then
          let payloadSize := bufferRead16LE buf2 0
          if payloadSize = 0 ∨ payloadSize > c2.query.bufferSize then
            (closeConnection c2, s2, InputOutcome.closed)
          else if payloadSize ≠ 65535 then
            connInputLoop fuel { c2 with rwSize := payloadSize, rwPosition := 0 } s2
          else
            connInputLoop fuel c2 s2
        else if c2.rwPosition = 6 then
          let raw := bufferRead32LE buf2 2
          let fits := raw < 2147483648 ∧ raw ≠ 0 ∧ raw ≤ c2.query.bufferSize
          if fits then
            connInputLoop fuel { c2 with rwSize := raw, rwPosition := 0 } s2
          else
            (closeConnection c2, s2, InputOutcome.closed)
        else
          (c2, s2, InputOutcome.panicked)
      else
        connInputLoop fuel c2 s2

/-- CheckConnectionInput (connections.cc lines 168-245): skip when the
socket is closed; close on out-of-order data (state not READING); the
query object is allocated before the loop in the source and is always
present in the model. -/
def checkConnectionInput (c : TConnection) (s : SocketBuf) :
    TConnection × SocketBuf × InputOutcome :=
  if ¬ c.socketOpen then
    (c, s, InputOutcome.wait)
  else if c.state ≠ ConnState.reading then
    (closeConnection c, s, InputOutcome.closed)
  else
    connInputLoop (s.pending.length + 1) c s

-- Request gate (connections.cc, CheckConnectionQueryRequest,
-- authorized branches, lines 353-416).

/-- What the request gate did with the query. -/
inductive RequestAction where
  | dispatched
  | sentFailed
  | ignored
  | unauthorizedPath
deriving DecidableEq

/-- The GAME whitelist: the guard of the first authorized branch of
CheckConnectionQueryRequest (connections.cc lines 354-383). -/
def gameWhitelist : List Nat :=
  [ QUERY_LOGIN_GAME, QUERY_LOGOUT_GAME, QUERY_SET_NAMELOCK,
    QUERY_BANISH_ACCOUNT, QUERY_SET_NOTATION, QUERY_REPORT_STATEMENT,
    QUERY_BANISH_IP_ADDRESS, QUERY_LOG_CHARACTER_DEATH,
    QUERY_ADD_BUDDY, QUERY_REMOVE_BUDDY, QUERY_DECREMENT_IS_ONLINE,
    QUERY_FINISH_AUCTIONS, QUERY_TRANSFER_HOUSES,
    QUERY_EVICT_FREE_ACCOUNTS, QUERY_EVICT_DELETED_CHARACTERS,
    QUERY_EVICT_EX_GUILDLEADERS, QUERY_INSERT_HOUSE_OWNER,
    QUERY_UPDATE_HOUSE_OWNER, QUERY_DELETE_HOUSE_OWNER,
    QUERY_GET_HOUSE_OWNERS, QUERY_GET_AUCTIONS, QUERY_START_AUCTION,
    QUERY_INSERT_HOUSES, QUERY_CLEAR_IS_ONLINE, QUERY_CREATE_PLAYERLIST,
    QUERY_LOG_KILLED_CREATURES, QUERY_LOAD_PLAYERS,
    QUERY_EXCLUDE_FROM_AUCTIONS, QUERY_CANCEL_HOUSE_TRANSFER,
    QUERY_LOAD_WORLD_CONFIG ]

/-- The LOGIN whitelist (connections.cc line 392). -/
def loginWhitelist : List Nat := [ QUERY_LOGIN_ACCOUNT ]

/-- The WEB whitelist (connections.cc lines 401-408). -/
def webWhitelist : List Nat :=
  [ QUERY_CHECK_ACCOUNT_PASSWORD, QUERY_CREATE_ACCOUNT,
    QUERY_CREATE_CHARACTER, QUERY_GET_ACCOUNT_SUMMARY,
    QUERY_GET_CHARACTER_PROFILE, QUERY_GET_WORLDS,
    QUERY_GET_ONLINE_CHARACTERS, QUERY_GET_KILL_STATISTICS ]

/-- The whitelist keyed by application type. -/
def connectionWhitelist (applicationType : Nat) : List Nat :=
  if applicationType = APPLICATION_TYPE_GAME then gameWhitelist
  else if applicationType = APPLICATION_TYPE_LOGIN then loginWhitelist
  else if applicationType = APPLICATION_TYPE_WEB then webWhitelist
  else []

/-- ProcessQuery (connections.cc lines 247-251): enqueues the bound
query to the workers and moves the connection to RESPONSE state.  The
queue side is modelled by queryEnqueue; here only the connection
effect is kept. -/
def processQuery (c : TConnection) : TConnection :=
  { c with state := ConnState.response }

/-- The query type of a request: the first payload byte, read through
`Request.Read8()` on a local copy of the view. -/
def requestType (q : TQuery) : Nat :=
  (readBuf8 q.request).1

/-- CheckConnectionQueryRequest (connections.cc lines 292-417).  The
query type is read from a local copy of the request view, so the
stored request is not advanced.  Only the authorized branches
(lines 353-416, the part the claims are about) are embedded; the
unauthorized LOGIN handshake is summarised by the
`unauthorizedPath` outcome. -/
def checkConnectionQueryRequest (c : TConnection) :
    TConnection × RequestAction :=
  if c.state ≠ ConnState.request then
    (c, RequestAction.ignored)
  else if ¬ c.authorized then
    (c, RequestAction.unauthorizedPath)
  else
    let queryType := requestType c.query
    if c.applicationType = APPLICATION_TYPE_GAME then
      if queryType ∈ gameWhitelist then (processQuery c, RequestAction.dispatched)
      else (sendQueryFailed c, RequestAction.sentFailed)
    else if c.applicationType = APPLICATION_TYPE_LOGIN then
      if queryType ∈ loginWhitelist then (processQuery c, RequestAction.dispatched)
      else (sendQueryFailed c, RequestAction.sentFailed)
    else if c.applicationType = APPLICATION_TYPE_WEB then
      if queryType ∈ webWhitelist then (processQuery c, RequestAction.dispatched)
      else (sendQueryFailed c, RequestAction.sentFailed)
    else
      (c, RequestAction.ignored)

-- TransactionScope (database_sqlite.cc lines 397-440 and
-- database_postgres.cc lines 1121-1164; the two are identical).

/-- TransactionScope: m_Database is the held database handle, if
any. -/
structure TransactionScope where
  database : Option Nat

/-- TransactionScope::Begin: refuses (issuing nothing) when a
transaction is already held; otherwise issues BEGIN, holding the
database exactly when the command succeeds (`execOk`).  Returns the
new scope, the success flag and the commands issued. -/
def scopeBegin (execOk : Bool) (s : TransactionScope) (db : Nat) :
    TransactionScope × Bool × List String :=
  if s.database.isSome then
    (s, false, [])
  else if execOk then
    ({ database := some db }, true, ["BEGIN"])
  else
    (s, false, ["BEGIN"])

/-- TransactionScope::Commit: refuses (issuing nothing) when no
transaction is held; otherwise issues COMMIT and releases the hold
exactly when the command succeeds. -/
def scopeCommit (execOk : Bool) (s : TransactionScope) :
    TransactionScope × Bool × List String :=
  if s.database.isNone then
    (s, false, [])
  else if execOk then
    ({ database := none }, true, ["COMMIT"])
  else
    (s, false, ["COMMIT"])

/-- The TransactionScope destructor: issues ROLLBACK exactly when a
database is still held. -/
def scopeDestruct (s : TransactionScope) : List String :=
  if s.database.isSome then ["ROLLBACK"] else []

-- Prepared-statement cache (database_sqlite.cc PrepareQuery lines
-- 76-132; database_postgres.cc PrepareQuery lines 1035-1117 has the
-- same scan/evict structure with Text != NULL as the occupancy test).

/-- HashString (querymanager.cc lines 202-210): 32-bit FNV1a over the
characters of the string. -/
def hashString (s : String) : Nat :=
  s.toList.foldl (fun h c => ((h ^^^ c.toNat) * 16777619) % U32) 2166136261

/-- One TCachedStatement slot: occupancy (Stmt/Text non-NULL), the SQL
text, its 32-bit hash, and the last-used stamp. -/
structure CacheSlot where
  occupied : Bool
  text : String
  hash : Nat
  lastUsed : Nat
deriving DecidableEq

instance : Inhabited CacheSlot :=
  ⟨{ occupied := false, text := "", hash := 0, lastUsed := 0 }⟩

/-- Result of the PrepareQuery scan: a cache hit at an index, or a
miss together with the least-recently-used index and its stamp. -/
inductive ScanResult where
  | hit (i : Nat)
  | miss (lru : Nat) (lruTime : Nat)
deriving DecidableEq

/-- The PrepareQuery scan loop: walk the slots once, tracking the
first slot with the smallest last-used stamp, and stop at the first
occupied slot whose hash and full text match. -/
def scanStmts (h : Nat) (t : String) :
    List CacheSlot → Nat → Nat → Nat → ScanResult
  | [], _, lru, lruTime => ScanResult.miss lru lruTime
  | e :: rest, i, lru, lruTime =>
    let lru2 := if e.lastUsed < lruTime then i else lru
    let lruTime2 := if e.lastUsed < lruTime then e.lastUsed else lruTime
    if e.occupied ∧ e.hash = h ∧ e.text = t then
      ScanResult.hit i
    else
      scanStmts h t rest (i + 1) lru2 lruTime2

/-- The initial value of the LeastRecentlyUsedTime accumulator:
`CachedStatements[0].LastUsed` (the cache array is never empty, its
capacity being asserted positive). -/
def cacheInitTime (cache : List CacheSlot) : Nat :=
  match cache with
  | [] => 0
  | e :: _ => e.lastUsed

/-- PrepareQuery: on a hit, bump the slot's last-used stamp and return
its handle (the slot index; for PostgreSQL the statement name STMTi is
determined by the index) without preparing anything new; on a miss,
evict the least-recently-used slot, prepare the text there and return
it.  Result: new cache, returned slot index, whether a new server-side
statement was prepared. -/
def prepareQuery (cache : List CacheSlot) (now : Nat) (t : String) :
    List CacheSlot × Nat × Bool :=
  match scanStmts (hashString t) t cache 0 0 (cacheInitTime cache) with
  | ScanResult.hit i =>
    (cache.set i { cache.getD i default with lastUsed := now }, i, false)
  | ScanResult.miss lru _ =>
    (cache.set lru
       { occupied := true, text := t, hash := hashString t, lastUsed := now },
     lru, true)

/-- Number of live (occupied) slots in the cache. -/
def liveCount (cache : List CacheSlot) : Nat :=
  cache.countP (fun e => e.occupied)

-- Concrete fixtures used by the witness and counterexample theorems.

/-- The all-zero byte buffer. -/
def zeroBuf : Nat → Nat := fun _ => 0

/-- A fresh query object as QueryNew builds it (query.cc lines 27-35):
zeroed buffer of the configured size, empty views. -/
def mkQuery (bufferSize : Nat) : TQuery :=
  { queryType := 0, queryStatus := 0, worldID := 0, bufferSize := bufferSize,
    buffer := zeroBuf,
    request := { data := zeroBuf, size := 0, position := 0 },
    response := { data := zeroBuf, size := 0, position := 0 } }

/-- A query whose request view holds the given payload bytes, as the
connection sets it after reading a full frame. -/
def mkQueryReq (bufferSize : Nat) (bytes : List Nat) : TQuery :=
  { mkQuery bufferSize with
    request := { data := bufferWriteBytes zeroBuf 0 bytes,
                 size := bytes.length, position := 0 } }

/-- A connection slot bound to a query, socket open, counters clear. -/
def mkConn (st : ConnState) (q : TQuery) : TConnection :=
  { state := st, socketOpen := true, rwSize := 0, rwPosition := 0,
    authorized := false, applicationType := 0, query := q }

/-- A request whose type byte is a known query type. -/
def qKnownType : TQuery := mkQueryReq 1024 [ QUERY_LOGIN_ACCOUNT ]

/-- A request whose type byte (99) has no case in the dispatch
switch. -/
def qUnknownType : TQuery := mkQueryReq 1024 [99]

/-- An authorized LOGIN-application connection holding a request of
type LOGIN_GAME (not in the LOGIN whitelist). -/
def cLoginBadType : TConnection :=
  { mkConn ConnState.request (mkQueryReq 1024 [ QUERY_LOGIN_GAME ]) with
    authorized := true, applicationType := APPLICATION_TYPE_LOGIN }

/-- A queue state 46 positions before the uint32 write-position
wraparound, with the default MaxQueries = 2 * MaxConnections = 50. -/
def wrapQueue : TQueryQueue :=
  { readPos := 4294967250, writePos := 4294967250, maxQueries := 50,
    slots := zeroBuf }

/-- wrapQueue after enqueuing the 47 handles 1..47 (room is available
at every step, so every enqueue succeeds). -/
def wrapRun : TQueryQueue :=
  (List.range 47).foldl (fun q i => enqueueIfRoom q (i + 1)) wrapQueue

/-- A small queue holding one handle (5) at position 3 of 3 slots. -/
def smallQueue : TQueryQueue :=
  { readPos := 3, writePos := 4, maxQueries := 3,
    slots := fun j => if j = 0 then 5 else 0 }

/-- A two-slot statement cache holding two prepared statements. -/
def cacheEx : List CacheSlot :=
  [ { occupied := true, text := "SELECT A", hash := hashString "SELECT A",
      lastUsed := 9 },
    { occupied := true, text := "SELECT B", hash := hashString "SELECT B",
      lastUsed := 4 } ]

-- Helper lemmas.

theorem queryFinishResponse_status (q : TQuery) :
    ((queryFinishResponse q).2).queryStatus = q.queryStatus := by
  unfold queryFinishResponse
  split
  · rfl
  · rfl

theorem queryBeginResponse_status (q : TQuery) (s : Nat) :
    (queryBeginResponse q s).queryStatus = s := rfl

theorem queryFailed_status (q : TQuery) :
    (queryFailed q).queryStatus = QUERY_STATUS_FAILED := by
  unfold queryFailed
  rw [queryFinishResponse_status, queryBeginResponse_status]

theorem numQueries_no_wrap (q : TQueryQueue) (hrw : q.readPos ≤ q.writePos)
    (hw : q.writePos < U32) : numQueries q = q.writePos - q.readPos := by
  unfold numQueries U32 at *
  omega

/-- Slots of two live positions within a window smaller than
MaxQueries never collide. -/
theorem slot_index_ne (r i w m : Nat) (hlt : r + i < w) (hwin : w - (r + i) < m) :
    (r + i) % m ≠ w % m := by
  intro heq
  have h0 : (w - (r + i)) % m = 0 := Nat.sub_mod_eq_zero_of_mod_eq heq.symm
  rw [Nat.mod_eq_of_lt hwin] at h0
  omega

theorem absQueue_enqueueStep (q : TQueryQueue) (x : Nat)
    (hrw : q.readPos ≤ q.writePos) (hw : q.writePos + 1 < U32)
    (hroom : q.writePos - q.readPos < q.maxQueries) :
    (enqueueStep q x).writePos = q.writePos + 1
  ∧ absQueue (enqueueStep q x) = absQueue q ++ [x] := by
  have hw0 : q.writePos < U32 := by omega
  have hwp : (q.writePos + 1) % U32 = q.writePos + 1 := Nat.mod_eq_of_lt hw
  have hstep : (enqueueStep q x).writePos = q.writePos + 1 := by
    simp [enqueueStep, hwp]
  refine ⟨hstep, ?_⟩
  have hread : (enqueueStep q x).readPos = q.readPos := rfl
  have hn : numQueries q = q.writePos - q.readPos := numQueries_no_wrap q hrw hw0
  have hn2 : numQueries (enqueueStep q x) = (q.writePos - q.readPos) + 1 := by
    have h2 := numQueries_no_wrap (enqueueStep q x)
      (by rw [hstep, hread]; omega)
      (by rw [hstep]; exact hw)
    rw [hstep, hread] at h2
    rw [h2]
    omega
  unfold absQueue
  rw [hn, hn2, List.range_succ, List.map_append]
  congr 1
  · apply List.map_congr_left
    intro i hi
    have hi2 : i < q.writePos - q.readPos := List.mem_range.mp hi
    have hlt : q.readPos + i < q.writePos := by omega
    have hmod : (q.readPos + i) % U32 = q.readPos + i :=
      Nat.mod_eq_of_lt (by omega)
    have hne : (q.readPos + i) % q.maxQueries ≠ q.writePos % q.maxQueries :=
      slot_index_ne q.readPos i q.writePos q.maxQueries hlt (by omega)
    simp [enqueueStep, hmod, hne]
  · have hsum : q.readPos + (q.writePos - q.readPos) = q.writePos := by omega
    simp [enqueueStep, hsum, Nat.mod_eq_of_lt hw0]

theorem absQueue_dequeue (q : TQueryQueue)
    (hrw : q.readPos < q.writePos) (hw : q.writePos < U32) :
    (queryDequeue true q).1 = (absQueue q).head?
  ∧ (queryDequeue true q).2.readPos = q.readPos + 1
  ∧ absQueue (queryDequeue true q).2 = (absQueue q).tail := by
  have hn : numQueries q = q.writePos - q.readPos :=
    numQueries_no_wrap q (le_of_lt hrw) hw
  have hne : numQueries q ≠ 0 := by omega
  have hr1 : (q.readPos + 1) % U32 = q.readPos + 1 := Nat.mod_eq_of_lt (by omega)
  have hrm : q.readPos % U32 = q.readPos := Nat.mod_eq_of_lt (by omega)
  obtain ⟨m, hm⟩ : ∃ m, q.writePos - q.readPos = m + 1 :=
    ⟨q.writePos - q.readPos - 1, by omega⟩
  have habs : absQueue q
      = q.slots ((q.readPos % U32) % q.maxQueries)
        :: (List.range m).map
             (fun i => q.slots (((q.readPos + (i + 1)) % U32) % q.maxQueries)) := by
    unfold absQueue
    rw [hn, hm, List.range_succ_eq_map, List.map_cons, List.map_map]
    simp [Function.comp]
  have hdq : queryDequeue true q
      = (some (q.slots (q.readPos % q.maxQueries)),
         { q with readPos := (q.readPos + 1) % U32 }) := by
    simp [queryDequeue, hne]
  refine ⟨?_, ?_, ?_⟩
  · rw [hdq, habs]
    simp [hrm]
  · rw [hdq]
    simpa using hr1
  · rw [hdq, habs]
    have hn2 : numQueries { q with readPos := (q.readPos + 1) % U32 } = m := by
      have h2 := numQueries_no_wrap { q with readPos := (q.readPos + 1) % U32 }
        (by show (q.readPos + 1) % U32 ≤ q.writePos; rw [hr1]; omega) hw
      rw [h2]
      show q.writePos - (q.readPos + 1) % U32 = m
      rw [hr1]
      omega
    unfold absQueue
    rw [hn2]
    simp only [List.tail_cons]
    apply List.map_congr_left
    intro i _
    have harg : (q.readPos + 1) % U32 + i = q.readPos + (i + 1) := by
      rw [hr1]
      omega
    simp [harg]

theorem scanStmts_miss_le (h : Nat) (t : String) :
    ∀ (l : List CacheSlot) (i lru lruTime r rt : Nat),
      scanStmts h t l i lru lruTime = ScanResult.miss r rt →
      rt ≤ lruTime ∧ ∀ e ∈ l, rt ≤ e.lastUsed := by
  intro l
  induction l with
  | nil =>
    intro i lru lruTime r rt hs
    simp only [scanStmts, ScanResult.miss.injEq] at hs
    obtain ⟨_, h2⟩ := hs
    subst h2
    exact ⟨le_refl _, by simp⟩
  | cons e rest ih =>
    intro i lru lruTime r rt hs
    simp only [scanStmts] at hs
    by_cases hc : e.occupied = true ∧ e.hash = h ∧ e.text = t
    · simp [hc] at hs
    · rw [if_neg hc] at hs
      obtain ⟨h1, h2⟩ := ih _ _ _ _ _ hs
      by_cases hlt : e.lastUsed < lruTime
      · rw [if_pos hlt] at h1
        refine ⟨le_trans h1 (le_of_lt hlt), ?_⟩
        intro e2 he2
        rcases List.mem_cons.mp he2 with he2 | he2
        · subst he2; exact h1
        · exact h2 e2 he2
      · rw [if_neg hlt] at h1
        refine ⟨h1, ?_⟩
        intro e2 he2
        rcases List.mem_cons.mp he2 with he2 | he2
        · subst he2; omega
        · exact h2 e2 he2

theorem scanStmts_miss_src (h : Nat) (t : String) :
    ∀ (l : List CacheSlot) (i lru lruTime r rt : Nat),
      scanStmts h t l i lru lruTime = ScanResult.miss r rt →
      (r = lru ∧ rt = lruTime)
    ∨ ∃ j, j < l.length ∧ r = i + j ∧ rt = (l.getD j default).lastUsed := by
  intro l
  induction l with
  | nil =>
    intro i lru lruTime r rt hs
    simp only [scanStmts, ScanResult.miss.injEq] at hs
    exact Or.inl ⟨hs.1.symm, hs.2.symm⟩
  | cons e rest ih =>
    intro i lru lruTime r rt hs
    simp only [scanStmts] at hs
    by_cases hc : e.occupied = true ∧ e.hash = h ∧ e.text = t
    · simp [hc] at hs
    · rw [if_neg hc] at hs
      by_cases hlt : e.lastUsed < lruTime
      · rw [if_pos hlt, if_pos hlt] at hs
        rcases ih _ _ _ _ _ hs with ⟨h1, h2⟩ | ⟨j, hj, h1, h2⟩
        · exact Or.inr ⟨0, by simp, by omega, by simp [h2]⟩
        · exact Or.inr ⟨j + 1, by simp; omega, by omega, by simpa using h2⟩
      · rw [if_neg hlt, if_neg hlt] at hs
        rcases ih _ _ _ _ _ hs with ⟨h1, h2⟩ | ⟨j, hj, h1, h2⟩
        · exact Or.inl ⟨h1, h2⟩
        · exact Or.inr ⟨j + 1, by simp; omega, by omega, by simpa using h2⟩

theorem scanStmts_hit_src (h : Nat) (t : String) :
    ∀ (l : List CacheSlot) (i lru lruTime r : Nat),
      scanStmts h t l i lru lruTime = ScanResult.hit r →
      ∃ j, j < l.length ∧ r = i + j
        ∧ (l.getD j default).occupied = true
        ∧ (l.getD j default).hash = h
        ∧ (l.getD j default).text = t := by
  intro l
  induction l with
  | nil =>
    intro i lru lruTime r hs
    simp [scanStmts] at hs
  | cons e rest ih =>
    intro i lru lruTime r hs
    simp only [scanStmts] at hs
    by_cases hc : e.occupied = true ∧ e.hash = h ∧ e.text = t
    · rw [if_pos hc, ScanResult.hit.injEq] at hs
      exact ⟨0, by simp, by omega, by simpa using hc.1,
             by simpa using hc.2.1, by simpa using hc.2.2⟩
    · rw [if_neg hc] at hs
      obtain ⟨j, hj, h1, h2⟩ := ih _ _ _ _ hs
      exact ⟨j + 1, by simp; omega, by omega, by simpa using h2⟩

theorem scanStmts_hit_exists (h : Nat) (t : String) :
    ∀ (l : List CacheSlot) (i lru lruTime : Nat),
      (∃ e ∈ l, e.occupied = true ∧ e.hash = h ∧ e.text = t) →
      ∃ r, scanStmts h t l i lru lruTime = ScanResult.hit r := by
  intro l
  induction l with
  | nil =>
    intro i lru lruTime hex
    simp at hex
  | cons e rest ih =>
    intro i lru lruTime hex
    by_cases hc : e.occupied = true ∧ e.hash = h ∧ e.text = t
    · exact ⟨i, by simp [scanStmts, hc]⟩
    · obtain ⟨e2, he2, hp⟩ := hex
      rcases List.mem_cons.mp he2 with he2 | he2
      · subst he2; exact absurd hp hc
      · obtain ⟨r, hr⟩ := ih _ _ _ ⟨e2, he2, hp⟩
        exact ⟨r, by simp only [scanStmts]; rw [if_neg hc]; exact hr⟩

-- Claim theorems.

/-- C1 (amended): the worker loop body performs a single dispatch per
dequeued query: it never calls DatabaseCheckpoint, invokes the handler
at most once (exactly once for a known type, zero times for an unknown
type, which is answered FAILED), and emits whatever status the handler
left — there is no retry and no PENDING-to-FAILED conversion. -/
theorem C1_worker_single_dispatch (handlers : Nat → TQuery → TQuery)
    (q : TQuery) :
    (workerProcessOne handlers q).2.2 = 0
  ∧ (workerProcessOne handlers q).2.1 ≤ 1
  ∧ (requestType q ∉ dispatchTableTypes →
       (workerProcessOne handlers q).1.queryStatus = QUERY_STATUS_FAILED
     ∧ (workerProcessOne handlers q).2.1 = 0)
  ∧ (requestType q ∈ dispatchTableTypes →
       (workerProcessOne handlers q).2.1 = 1
     ∧ (workerProcessOne handlers q).1
         = handlers (requestType q)
             { q with queryType := requestType q,
                      request := (readBuf8 q.request).2 }) := by
  unfold workerProcessOne requestType
  by_cases h : (readBuf8 q.request).1 ∈ dispatchTableTypes <;>
    simp [h, queryFailed_status]

/-- C1 witness: a request with unknown type byte 99 is answered FAILED
with zero handler invocations. -/
theorem C1_worker_single_dispatch_witness :
    (requestType qUnknownType ∉ dispatchTableTypes)
  ∧ ((workerProcessOne (fun _ => pendingHandler) qUnknownType).1.queryStatus
       = QUERY_STATUS_FAILED
   ∧ (workerProcessOne (fun _ => pendingHandler) qUnknownType).2.1 = 0) :=
  ⟨by decide,
   (C1_worker_single_dispatch (fun _ => pendingHandler) qUnknownType).2.2.1
     (by decide)⟩

/-- C1 counterexample: a handler that leaves the status PENDING on a
LOGIN_ACCOUNT request is invoked exactly once (not QueryMaxAttempts =
3 times), DatabaseCheckpoint is never called, and the emitted status
stays PENDING instead of becoming FAILED — refuting the claimed retry
loop. -/
theorem C1_counterexample :
    (workerProcessOne (fun _ => pendingHandler) qKnownType).1.queryStatus
      = QUERY_STATUS_PENDING
  ∧ QUERY_STATUS_PENDING ≠ QUERY_STATUS_FAILED
  ∧ (workerProcessOne (fun _ => pendingHandler) qKnownType).2.1 = 1
  ∧ (workerProcessOne (fun _ => pendingHandler) qKnownType).2.1
      ≠ defaultConfig.queryMaxAttempts
  ∧ (workerProcessOne (fun _ => pendingHandler) qKnownType).2.2 = 0 := by
  decide

/-- C2 (amended): when the response write buffer has overflowed on a
connection in RESPONSE state, SendQueryResponse closes the connection;
the query status is not downgraded and no response is delivered. -/
theorem C2_overflow_closes (c : TConnection)
    (h1 : c.state = ConnState.response)
    (h2 : c.query.response.overflowed = true) :
    (sendQueryResponse c).socketOpen = false
  ∧ (sendQueryResponse c).state = c.state
  ∧ (sendQueryResponse c).query.queryStatus = c.query.queryStatus := by
  simp [sendQueryResponse, h1, h2, closeConnection]

/-- C2 witness: a concrete overflowed OK response on a RESPONSE-state
connection is met with a socket close. -/
theorem C2_overflow_closes_witness :
    ((mkConn ConnState.response (queryOk (mkQuery 2))).state
        = ConnState.response
   ∧ (mkConn ConnState.response (queryOk (mkQuery 2))).query.response.overflowed
        = true)
  ∧ (sendQueryResponse
       (mkConn ConnState.response (queryOk (mkQuery 2)))).socketOpen = false :=
  ⟨⟨rfl, by decide⟩,
   (C2_overflow_closes (mkConn ConnState.response (queryOk (mkQuery 2)))
      rfl (by decide)).1⟩

/-- C2 counterexample: an OK response that overflows a 2-byte query
buffer is not downgraded to FAILED — its status stays OK and the
connection is closed without ever reaching the WRITING state, so no
response at all is delivered. -/
theorem C2_counterexample :
    (queryOk (mkQuery 2)).queryStatus = QUERY_STATUS_OK
  ∧ (queryOk (mkQuery 2)).response.overflowed = true
  ∧ (sendQueryResponse
       (mkConn ConnState.response (queryOk (mkQuery 2)))).socketOpen = false
  ∧ (sendQueryResponse
       (mkConn ConnState.response (queryOk (mkQuery 2)))).state
      ≠ ConnState.writing
  ∧ QUERY_STATUS_OK ≠ QUERY_STATUS_FAILED := by
  decide

/-- C7: the transaction scope issues BEGIN exactly on a first Begin
and succeeds iff no transaction is held (given the command itself
succeeds); a second Begin while holding fails without issuing BEGIN;
Commit while holding issues COMMIT and releases; destruction while
holding issues ROLLBACK. -/
theorem C7_transaction_scope (s : TransactionScope) (db : Nat)
    (okB okC : Bool) (hB : okB = true) (hC : okC = true) :
    ((scopeBegin okB s db).2.1 = true ↔ s.database = none)
  ∧ (s.database = none →
       scopeBegin okB s db = ({ database := some db }, true, ["BEGIN"]))
  ∧ (s.database.isSome = true → scopeBegin okB s db = (s, false, []))
  ∧ (s.database.isSome = true →
       scopeCommit okC s = ({ database := none }, true, ["COMMIT"]))
  ∧ (s.database = none →
       scopeBegin okB ((scopeBegin okB s db).1) db
         = ((scopeBegin okB s db).1, false, []))
  ∧ scopeDestruct s = (if s.database.isSome then ["ROLLBACK"] else []) := by
  subst hB
  subst hC
  cases h : s.database <;>
    simp [scopeBegin, scopeCommit, scopeDestruct, h]

/-- C7 witness: a fresh scope Begin succeeds on database 7. -/
theorem C7_transaction_scope_witness :
    (true = true ∧ true = true)
  ∧ ((scopeBegin true { database := none } 7).2.1 = true
       ↔ ({ database := none } : TransactionScope).database = none) :=
  ⟨⟨rfl, rfl⟩, (C7_transaction_scope { database := none } 7 true true rfl rfl).1⟩

/-- C9 (amended): InitQuery starts exactly one worker thread, whatever
QueryWorkerThreads says and whatever the backend concurrency is. -/
theorem C9_single_worker (cfg : TConfig) :
    initQueryNumWorkers cfg = 1
  ∧ (initQueryWorkerIds cfg).length = 1 := by
  simp [initQueryNumWorkers, initQueryWorkerIds]

/-- C9 counterexample: with QueryWorkerThreads = 4 on the PostgreSQL
backend the claim demands min 4 INT_MAX = 4 workers, but InitQuery
starts 1. -/
theorem C9_counterexample :
    initQueryNumWorkers { defaultConfig with queryWorkerThreads := 4 } = 1
  ∧ min ({ defaultConfig with queryWorkerThreads := 4 }).queryWorkerThreads
        databaseMaxConcurrencyPostgreSQL = 4
  ∧ (1 : Nat) ≠ 4 := by
  decide

/-- C10: in READING state with RWSize = 0 and RWPosition = 1 (one
header byte received), the next read is requested with byte count
(2 - RWPosition) - RWPosition = 0; the zero-byte read returns 0, which
CheckConnectionInput treats as a graceful close, so the connection is
closed even though the frame is well-formed. -/
theorem C10_zero_count_read_closes (c : TConnection) (s : SocketBuf)
    (n : Nat) (hopen : c.socketOpen = true)
    (hst : c.state = ConnState.reading)
    (hsz : c.rwSize = 0) (hpos : c.rwPosition = 1) :
    requestedReadCount c = 0
  ∧ connInputLoop (n + 1) c s = (closeConnection c, s, InputOutcome.closed)
  ∧ (checkConnectionInput c s).1.socketOpen = false
  ∧ (checkConnectionInput c s).2.2 = InputOutcome.closed := by
  have hcount : requestedReadCount c = 0 := by
    simp [requestedReadCount, readSizeOf, hsz, hpos]
  have hloop : ∀ m : Nat,
      connInputLoop (m + 1) c s = (closeConnection c, s, InputOutcome.closed) := by
    intro m
    simp [connInputLoop, hcount]
  have hchk : checkConnectionInput c s
      = (closeConnection c, s, InputOutcome.closed) := by
    rw [checkConnectionInput, if_neg (by simp [hopen]), if_neg (by simp [hst])]
    exact hloop s.pending.length
  exact ⟨hcount, hloop n, by rw [hchk]; rfl, by rw [hchk]⟩

/-- C10 witness: a connection that got the first header byte in a
previous poll tick is closed as soon as the second byte arrives. -/
theorem C10_zero_count_read_closes_witness :
    ((({ mkConn ConnState.reading (mkQuery 16) with
          rwPosition := 1 } : TConnection).socketOpen = true)
   ∧ (({ mkConn ConnState.reading (mkQuery 16) with
          rwPosition := 1 } : TConnection).rwPosition = 1))
  ∧ (checkConnectionInput
       { mkConn ConnState.reading (mkQuery 16) with rwPosition := 1 }
       { pending := [0], atEof := false }).2.2 = InputOutcome.closed :=
  ⟨⟨rfl, rfl⟩,
   (C10_zero_count_read_closes
      { mkConn ConnState.reading (mkQuery 16) with rwPosition := 1 }
      { pending := [0], atEof := false } 0 rfl rfl rfl rfl).2.2.2⟩

/-- C3: on an authorized connection in REQUEST state, the request is
dispatched to a worker exactly when its type is in the whitelist of the
connection's application type; a request outside the whitelist takes
the SendQueryFailed path, but because the connection is in REQUEST
state (not RESPONSE), SendQueryResponse closes it: the claimed FAILED
response is never delivered (the WRITING state is never entered). -/
theorem C3_whitelist_gate (c : TConnection)
    (hst : c.state = ConnState.request) (hauth : c.authorized = true)
    (happ : c.applicationType = APPLICATION_TYPE_GAME
          ∨ c.applicationType = APPLICATION_TYPE_LOGIN
          ∨ c.applicationType = APPLICATION_TYPE_WEB) :
    ((checkConnectionQueryRequest c).2 = RequestAction.dispatched
       ↔ requestType c.query ∈ connectionWhitelist c.applicationType)
  ∧ ((checkConnectionQueryRequest c).2 = RequestAction.dispatched →
       (checkConnectionQueryRequest c).1.state = ConnState.response)
  ∧ (requestType c.query ∉ connectionWhitelist c.applicationType →
       (checkConnectionQueryRequest c).2 = RequestAction.sentFailed
     ∧ (checkConnectionQueryRequest c).1.socketOpen = false
     ∧ (checkConnectionQueryRequest c).1.state ≠ ConnState.writing) := by
  rcases happ with h | h | h <;>
  · by_cases hm : requestType c.query ∈ connectionWhitelist c.applicationType <;>
      simp_all [checkConnectionQueryRequest, connectionWhitelist, processQuery,
        sendQueryFailed, sendQueryResponse, closeConnection,
        gameWhitelist, loginWhitelist, webWhitelist,
        APPLICATION_TYPE_GAME, APPLICATION_TYPE_LOGIN, APPLICATION_TYPE_WEB]

/-- C3 witness (the failing input of the code bug): an authorized
LOGIN connection sending LOGIN_GAME (type 20, outside the LOGIN
whitelist) has its socket closed instead of receiving a FAILED
response. -/
theorem C3_whitelist_gate_witness :
    (requestType cLoginBadType.query
       ∉ connectionWhitelist cLoginBadType.applicationType)
  ∧ ((checkConnectionQueryRequest cLoginBadType).2 = RequestAction.sentFailed
   ∧ (checkConnectionQueryRequest cLoginBadType).1.socketOpen = false
   ∧ (checkConnectionQueryRequest cLoginBadType).1.state ≠ ConnState.writing) :=
  ⟨by decide,
   (C3_whitelist_gate cLoginBadType rfl rfl (Or.inr (Or.inl rfl))).2.2
     (by decide)⟩

/-- C4: evaluating CheckConnectionInput at the failing inputs.  A
declared length of 0 closes the connection, as does a length above
QueryBufferSize; but a short header of 0xFFFF (with the default 1 MiB
buffer) never reaches the u32 extended-length check: the loop requests
ReadSize - RWPosition = 2 bytes instead of 4, reaches RWPosition = 4,
and hits the PANIC branch — the extended-length parse at
RWPosition = 6 is unreachable. -/
theorem C4_frame_length_checks :
    (checkConnectionInput (mkConn ConnState.reading (mkQuery 1048576))
       { pending := [255, 255, 1, 0], atEof := false }).2.2
      = InputOutcome.panicked
  ∧ (checkConnectionInput (mkConn ConnState.reading (mkQuery 1048576))
       { pending := [0, 0, 7, 7], atEof := false }).2.2
      = InputOutcome.closed
  ∧ (checkConnectionInput (mkConn ConnState.reading (mkQuery 16))
       { pending := [17, 0], atEof := false }).2.2
      = InputOutcome.closed
  ∧ (checkConnectionInput (mkConn ConnState.reading (mkQuery 16))
       { pending := [17, 0], atEof := false }).1.socketOpen = false := by
  decide

/-- C5: QueryEnqueue succeeds exactly when the reference count is 1 at
the compare-exchange, bumping it to 2 and appending the query to the
queue; any other starting count leaves both the count and the queue
unchanged. -/
theorem C5_enqueue_refcount_gate (rc : Int) (q : TQueryQueue) (x : Nat)
    (hrw : q.readPos ≤ q.writePos) (hw : q.writePos + 1 < U32)
    (hroom : numQueries q < q.maxQueries) :
    ((queryEnqueue rc q x).2.2 = true ↔ rc = 1)
  ∧ (rc = 1 →
       (queryEnqueue rc q x).1 = 2
     ∧ (queryEnqueue rc q x).2.1.writePos = q.writePos + 1
     ∧ absQueue (queryEnqueue rc q x).2.1 = absQueue q ++ [x])
  ∧ (rc ≠ 1 →
       (queryEnqueue rc q x).1 = rc
     ∧ (queryEnqueue rc q x).2.1 = q
     ∧ (queryEnqueue rc q x).2.2 = false) := by
  have hn : numQueries q = q.writePos - q.readPos :=
    numQueries_no_wrap q hrw (by omega)
  have habs := absQueue_enqueueStep q x hrw hw (by omega)
  by_cases h : rc = 1 <;>
    simp [queryEnqueue, enqueueIfRoom, h, hroom, habs.1, habs.2]

/-- C5 witness: enqueuing with reference count 1 into an empty
two-slot queue succeeds. -/
theorem C5_enqueue_refcount_gate_witness :
    (({ readPos := 0, writePos := 0, maxQueries := 2, slots := zeroBuf }
        : TQueryQueue).readPos
       ≤ ({ readPos := 0, writePos := 0, maxQueries := 2, slots := zeroBuf }
        : TQueryQueue).writePos)
  ∧ ((queryEnqueue 1
       { readPos := 0, writePos := 0, maxQueries := 2, slots := zeroBuf }
       9).2.2 = true ↔ (1 : Int) = 1) :=
  ⟨by decide,
   (C5_enqueue_refcount_gate 1
      { readPos := 0, writePos := 0, maxQueries := 2, slots := zeroBuf } 9
      (by decide) (by decide) (by decide)).1⟩

/-- C6 (amended): while the 32-bit positions do not wrap (write
position + 1 below 2^32 with read at or below write), each enqueue
with room advances the write position by exactly one and appends to
the abstract queue, and each dequeue of a non-empty queue advances the
read position by exactly one and removes the head — FIFO with no loss
or duplication.  (At the uint32 wraparound with MaxQueries = 50, which
does not divide 2^32, a live slot is overwritten: see the
counterexample.) -/
theorem C6_fifo_no_wrap (q : TQueryQueue) (x : Nat)
    (hrw : q.readPos ≤ q.writePos) (hw : q.writePos + 1 < U32)
    (hroom : numQueries q < q.maxQueries) :
    ((enqueueStep q x).writePos = q.writePos + 1
   ∧ absQueue (enqueueStep q x) = absQueue q ++ [x])
  ∧ (q.readPos < q.writePos →
       (queryDequeue true q).1 = (absQueue q).head?
     ∧ (queryDequeue true q).2.readPos = q.readPos + 1
     ∧ absQueue (queryDequeue true q).2 = (absQueue q).tail) := by
  have hn : numQueries q = q.writePos - q.readPos :=
    numQueries_no_wrap q hrw (by omega)
  exact ⟨absQueue_enqueueStep q x hrw hw (by omega),
         fun h => absQueue_dequeue q h (by omega)⟩

/-- C6 witness: enqueue and dequeue on a small concrete queue behave
as append and head removal. -/
theorem C6_fifo_no_wrap_witness :
    (smallQueue.readPos < smallQueue.writePos
   ∧ numQueries smallQueue < smallQueue.maxQueries)
  ∧ (queryDequeue true smallQueue).1 = (absQueue smallQueue).head? :=
  ⟨⟨by decide, by decide⟩,
   ((C6_fifo_no_wrap smallQueue 0
      (by decide) (by decide) (by decide)).2 (by decide)).1⟩

set_option maxRecDepth 100000 in
/-- C6 counterexample: starting 46 positions before the uint32
wraparound with the default MaxQueries = 50, the 47 handles 1..47 are
all enqueued successfully (room is available at every step), yet
draining the queue yields handle 47 twice and handle 1 never, and the
first handle dequeued is 47, not the first one enqueued — the ring
buffer loses one entry and duplicates another, refuting exactly-once
FIFO delivery. -/
theorem C6_counterexample :
    (drainN 47 wrapRun).count 47 = 2
  ∧ (drainN 47 wrapRun).count 1 = 0
  ∧ (drainN 47 wrapRun).head? = some 47 := by
  decide

/-- C8: PrepareQuery keeps the cache at its fixed capacity (the live
set never exceeds it); on a miss the evicted slot has the smallest
last-used stamp of all slots; on a hit (same hash, same text) the
cached slot is returned with its stamp refreshed and no new
server-side statement is prepared. -/
theorem C8_statement_cache (cache : List CacheSlot) (now : Nat)
    (t : String) (hcache : cache ≠ []) :
    (prepareQuery cache now t).1.length = cache.length
  ∧ liveCount (prepareQuery cache now t).1 ≤ cache.length
  ∧ ((¬ ∃ e ∈ cache, e.occupied = true ∧ e.hash = hashString t ∧ e.text = t) →
       (prepareQuery cache now t).2.2 = true
     ∧ (prepareQuery cache now t).2.1 < cache.length
     ∧ ∀ e ∈ cache,
         (cache.getD (prepareQuery cache now t).2.1 default).lastUsed
           ≤ e.lastUsed)
  ∧ ((∀ e ∈ cache, e.occupied = true → e.hash = hashString e.text) →
     (∃ e ∈ cache, e.occupied = true ∧ e.text = t) →
       ∃ i, i < cache.length
         ∧ (cache.getD i default).occupied = true
         ∧ (cache.getD i default).text = t
         ∧ prepareQuery cache now t
             = (cache.set i { cache.getD i default with lastUsed := now },
                i, false)) := by
  have hmem : ∀ (l : List CacheSlot) (j : Nat), j < l.length →
      l.getD j default ∈ l := by
    intro l j hj
    have h1 : l.getD j default = l[j] := by
      rw [List.getD_eq_getElem?_getD, List.getElem?_eq_getElem hj]
      rfl
    rw [h1]
    exact List.getElem_mem hj
  refine ⟨?_, ?_, ?_, ?_⟩
  · simp only [prepareQuery]
    cases hscan : scanStmts (hashString t) t cache 0 0 (cacheInitTime cache) <;>
      simp [List.length_set]
  · simp only [liveCount, prepareQuery]
    cases hscan : scanStmts (hashString t) t cache 0 0 (cacheInitTime cache) <;>
      exact le_trans (List.countP_le_length _)
        (le_of_eq (List.length_set ..))
  · intro hnone
    simp only [prepareQuery]
    cases hscan : scanStmts (hashString t) t cache 0 0 (cacheInitTime cache) with
    | hit r =>
      exfalso
      obtain ⟨j, hj, _, hocc, hh, ht⟩ :=
        scanStmts_hit_src (hashString t) t cache 0 0 (cacheInitTime cache)
          r hscan
      exact hnone ⟨cache.getD j default, hmem cache j hj, hocc, hh, ht⟩
    | miss r rt =>
      have hle := scanStmts_miss_le (hashString t) t cache 0 0
        (cacheInitTime cache) r rt hscan
      have hsrc := scanStmts_miss_src (hashString t) t cache 0 0
        (cacheInitTime cache) r rt hscan
      have hpos : 0 < cache.length := List.length_pos.mpr hcache
      have hrlen : r < cache.length ∧ rt = (cache.getD r default).lastUsed := by
        rcases hsrc with ⟨hr, hrt⟩ | ⟨j, hj, hr, hrt⟩
        · subst hr
          refine ⟨hpos, ?_⟩
          cases cache with
          | nil => exact absurd rfl hcache
          | cons a l => simpa [cacheInitTime] using hrt
        · have hr2 : r = j := by omega
          subst hr2
          exact ⟨hj, hrt⟩
      refine ⟨rfl, hrlen.1, ?_⟩
      intro e he
      calc (cache.getD r default).lastUsed = rt := hrlen.2.symm
        _ ≤ e.lastUsed := hle.2 e he
  · intro hinv hmatch
    obtain ⟨e0, he0, hocc0, ht0⟩ := hmatch
    have hh0 : e0.hash = hashString t := by
      rw [← ht0]
      exact hinv e0 he0 hocc0
    obtain ⟨r, hr⟩ := scanStmts_hit_exists (hashString t) t cache 0 0
      (cacheInitTime cache) ⟨e0, he0, hocc0, hh0, ht0⟩
    obtain ⟨j, hj, hrj, hocc, hh, ht⟩ :=
      scanStmts_hit_src (hashString t) t cache 0 0 (cacheInitTime cache)
        r hr
    have hr2 : r = j := by omega
    subst hr2
    refine ⟨r, hj, hocc, ht, ?_⟩
    simp only [prepareQuery]
    rw [hr]

/-- C8 witness: re-preparing the cached text "SELECT B" hits its slot
without preparing a new statement. -/
theorem C8_statement_cache_witness :
    ((∀ e ∈ cacheEx, e.occupied = true → e.hash = hashString e.text)
   ∧ (∃ e ∈ cacheEx, e.occupied = true ∧ e.text = "SELECT B"))
  ∧ (∃ i, i < cacheEx.length
       ∧ (cacheEx.getD i default).occupied = true
       ∧ (cacheEx.getD i default).text = "SELECT B"
       ∧ prepareQuery cacheEx 20 "SELECT B"
           = (cacheEx.set i { cacheEx.getD i default with lastUsed := 20 },
              i, false)) :=
  ⟨⟨by decide, by decide⟩,
   (C8_statement_cache cacheEx 20 "SELECT B" (by decide)).2.2.2
     (by decide) (by decide)⟩

end QueryManager
